import Mathlib

/-!
# Shallow embedding of the webauthn-server-buildkit verification core

Byte strings (`Uint8Array` / Node `Buffer`) are modelled as `List Nat` whose
entries are `< 256` (a `Uint8Array` stores its entries reduced mod 256).
JavaScript strings are modelled as Lean `String`; the library only ever
compares and concatenates ASCII strings, for which the UTF-16 / UTF-8 /
code-point distinctions are immaterial.

External collaborators (`node:crypto` primitives, `JSON.parse` /
`JSON.stringify` of caller-shaped records, `cbor-x`'s randomness-free decode)
are modelled as explicit function parameters or as executable Lean functions,
as noted at each definition.  Thrown exceptions are modelled with `Except`.
-/

namespace WebAuthnKit

/-! ## JavaScript 32-bit integer arithmetic -/

/-- Two's-complement reading of `n mod 2^32`, i.e. the value JavaScript's
`ToInt32` conversion produces. -/
def toInt32 (n : Int) : Int :=
  let m := n % 4294967296
  if m < 2147483648 then m else m - 4294967296

/-- Embeds `bufferToNumber` from `src/utils/buffer.ts`:
`num = (num << 8) | buffer[i]` folded over the bytes.  JavaScript `<<` and
`|` operate on 32-bit two's-complement integers, so the fold tracks the
unsigned 32-bit accumulator and the final result is its `ToInt32` reading. -/
def bufferToNumber (buffer : List Nat) : Int :=
  toInt32 (buffer.foldl (fun u b => ((u * 256) % 4294967296) + b % 256) 0)

/-! ## Base64URL (`src/utils/base64url.ts`)

`bufferToBase64URL` is Node's canonical base64 encoder followed by the
source's `+→-`, `/→_`, `=→''` substitutions; `base64URLToBuffer` is the
source's `-→+`, `_→/` substitution plus `=`-padding followed by Node's
lenient `Buffer.from(s, 'base64')` decoder, which maps each alphabet
character to its 6-bit value (ignoring non-alphabet characters and `=`)
and emits one byte per full 8 bits, discarding trailing bits. -/

/-- 6-bit value of a base64 character (both the standard and the URL-safe
alphabet, as Node accepts both); `none` for non-alphabet characters. -/
def b64CharVal (c : Char) : Option Nat :=
  if 'A' ≤ c ∧ c ≤ 'Z' then some (c.toNat - 65)
  else if 'a' ≤ c ∧ c ≤ 'z' then some (c.toNat - 97 + 26)
  else if '0' ≤ c ∧ c ≤ '9' then some (c.toNat - 48 + 52)
  else if c = '-' ∨ c = '+' then some 62
  else if c = '_' ∨ c = '/' then some 63
  else none

/-- URL-safe base64 character for a 6-bit value. -/
def valToB64Char (v : Nat) : Char :=
  if v < 26 then Char.ofNat (65 + v)
  else if v < 52 then Char.ofNat (97 + (v - 26))
  else if v < 62 then Char.ofNat (48 + (v - 52))
  else if v = 62 then '-'
  else '_'

/-- Regroup 6-bit values into 8-bit bytes, dropping trailing bits that do not
fill a byte (Node's decoder behaviour; a single trailing value yields no
byte). -/
def sextetsToBytes : List Nat → List Nat
  | a :: b :: c :: d :: rest =>
      (a * 4 + b / 16) :: ((b % 16) * 16 + c / 4) :: ((c % 4) * 64 + d) :: sextetsToBytes rest
  | [a, b, c] => [a * 4 + b / 16, (b % 16) * 16 + c / 4]
  | [a, b] => [a * 4 + b / 16]
  | _ => []

/-- Regroup 8-bit bytes into 6-bit values, zero-padding the final partial
group (canonical base64 encoding, padding characters already stripped). -/
def bytesToB64Vals : List Nat → List Nat
  | b1 :: b2 :: b3 :: rest =>
      (b1 / 4) :: ((b1 % 4) * 16 + b2 / 16) :: ((b2 % 16) * 4 + b3 / 64) :: (b3 % 64) ::
        bytesToB64Vals rest
  | [b1, b2] => [b1 / 4, (b1 % 4) * 16 + b2 / 16, (b2 % 16) * 4]
  | [b1] => [b1 / 4, (b1 % 4) * 16]
  | [] => []

/-- Embeds `bufferToBase64URL`. -/
def bufferToBase64URL (bytes : List Nat) : String :=
  String.mk ((bytesToB64Vals bytes).map valToB64Char)

/-- Embeds `base64URLToBuffer`. -/
def base64URLToBuffer (s : String) : List Nat :=
  sextetsToBytes (s.data.filterMap b64CharVal)

/-- UTF-8 bytes of an ASCII string (the only strings the library hashes or
serialises). -/
def strBytes (s : String) : List Nat := s.data.map Char.toNat

/-- Inverse view used by `base64URLToString` (`Buffer.toString('utf8')`),
restricted to single-byte characters. -/
def bytesToStr (bs : List Nat) : String :=
  String.mk (bs.map (fun b => Char.ofNat (b % 256)))

/-- Embeds `base64URLToString`. -/
def base64URLToString (s : String) : String := bytesToStr (base64URLToBuffer s)

/-! ## Buffer utilities (`src/utils/buffer.ts`) -/

/-- Embeds `buffersEqual`: same length and element-wise `===`. -/
def buffersEqual (a b : List Nat) : Bool := a == b

/-- Embeds `concatBuffers`. -/
def concatBuffers (a b : List Nat) : List Nat := a ++ b

/-! ## Error classes (`src/types/errors.ts`)

Every thrown `WebAuthnError` is identified by its class name and its stable
`code` string; messages are not modelled. -/

structure WError where
  kind : String
  code : String
deriving DecidableEq, Repr

def verificationError (code : String) : WError := ⟨"VerificationError", code⟩

def authenticationError (code : String) : WError := ⟨"AuthenticationError", code⟩

def sessionError (code : String) : WError := ⟨"SessionError", code⟩

def configurationError : WError := ⟨"ConfigurationError", "CONFIGURATION_ERROR"⟩

/-! ## CBOR decoding (`src/crypto/cbor.ts` over `cbor-x`)

`decodeCBOR` defers to the `cbor-x` library; the model below is an RFC 8949
decoder for the definite-length subset the library exchanges with this code
(unsigned/negative integers, byte strings, text strings, arrays, maps,
booleans, null, undefined).  Inputs outside this subset decode to `none`,
which the callers surface as their CBOR-decode error. -/

inductive CBORValue where
  | uint (n : Nat)
  | negint (n : Nat)
  | bytes (bs : List Nat)
  | text (s : String)
  | arr (items : List CBORValue)
  | map (entries : List (CBORValue × CBORValue))
  | simple (n : Nat)
deriving Repr

/-- Read the argument of a CBOR initial byte (additional info `ai`). -/
def readUIntArg (ai : Nat) (bs : List Nat) : Option (Nat × List Nat) :=
  if ai < 24 then some (ai, bs)
  else if ai = 24 then
    match bs with
    | b :: r => some (b, r)
    | _ => none
  else if ai = 25 then
    match bs with
    | b1 :: b2 :: r => some (b1 * 256 + b2, r)
    | _ => none
  else if ai = 26 then
    match bs with
    | b1 :: b2 :: b3 :: b4 :: r => some (((b1 * 256 + b2) * 256 + b3) * 256 + b4, r)
    | _ => none
  else none

mutual

def decodeItem : Nat → List Nat → Option (CBORValue × List Nat)
  | 0, _ => none
  | _, [] => none
  | fuel + 1, b :: rest =>
    let mt := b / 32
    let ai := b % 32
    if mt = 0 then (readUIntArg ai rest).map (fun p => (.uint p.1, p.2))
    else if mt = 1 then (readUIntArg ai rest).map (fun p => (.negint p.1, p.2))
    else if mt = 2 then
      match readUIntArg ai rest with
      | some (n, r) => if r.length < n then none else some (.bytes (r.take n), r.drop n)
      | none => none
    else if mt = 3 then
      match readUIntArg ai rest with
      | some (n, r) =>
          if r.length < n then none else some (.text (bytesToStr (r.take n)), r.drop n)
      | none => none
    else if mt = 4 then
      match readUIntArg ai rest with
      | some (n, r) => (decodeArray fuel n r).map (fun p => (.arr p.1, p.2))
      | none => none
    else if mt = 5 then
      match readUIntArg ai rest with
      | some (n, r) => (decodeEntries fuel n r).map (fun p => (.map p.1, p.2))
      | none => none
    else if mt = 7 then
      if 20 ≤ ai ∧ ai ≤ 23 then some (.simple ai, rest) else none
    else none

def decodeArray : Nat → Nat → List Nat → Option (List CBORValue × List Nat)
  | 0, _, _ => none
  | _, 0, bs => some ([], bs)
  | fuel + 1, n + 1, bs =>
    match decodeItem fuel bs with
    | some (v, r) =>
      match decodeArray fuel n r with
      | some (vs, r') => some (v :: vs, r')
      | none => none
    | none => none

def decodeEntries : Nat → Nat → List Nat → Option (List (CBORValue × CBORValue) × List Nat)
  | 0, _, _ => none
  | _, 0, bs => some ([], bs)
  | fuel + 1, n + 1, bs =>
    match decodeItem fuel bs with
    | some (k, r) =>
      match decodeItem fuel r with
      | some (v, r') =>
        match decodeEntries fuel n r' with
        | some (es, r'') => some ((k, v) :: es, r'')
        | none => none
      | none => none
    | none => none

end

/-- Embeds `decodeCBOR` (`cbor-x` `decode`): decode one value and require the
whole buffer to be consumed. -/
def decodeCBOR (bs : List Nat) : Option CBORValue :=
  match decodeItem (2 * bs.length + 2) bs with
  | some (v, []) => some v
  | _ => none

/-- JavaScript `Map.get` on a CBOR-decoded map, looking up an integer key
(later duplicate keys overwrite earlier ones when `cbor-x` builds the map,
hence the last match wins). -/
def cborMapGetInt (entries : List (CBORValue × CBORValue)) (key : Int) : Option CBORValue :=
  entries.foldl
    (fun acc kv =>
      match kv.1 with
      | .uint n => if key = (n : Int) then some kv.2 else acc
      | .negint n => if key = -((n : Int) + 1) then some kv.2 else acc
      | _ => acc)
    none

/-- JavaScript `Map.get` on a CBOR-decoded map, looking up a text key. -/
def cborMapGetText (entries : List (CBORValue × CBORValue)) (key : String) : Option CBORValue :=
  entries.foldl
    (fun acc kv =>
      match kv.1 with
      | .text s => if s = key then some kv.2 else acc
      | _ => acc)
    none

/-- Numeric reading of a CBOR value (`as number` in the source). -/
def asIntVal : CBORValue → Option Int
  | .uint n => some n
  | .negint n => some (-(n + 1) : Int)
  | _ => none

/-- Byte-string reading of a CBOR value (`as Uint8Array` in the source). -/
def asBytesVal : CBORValue → Option (List Nat)
  | .bytes bs => some bs
  | _ => none

/-! ## COSE keys (`src/crypto/cose.ts`) -/

/-- The three COSE public-key variants.  `alg` keeps the optional COSE
algorithm identifier (integer key 3). -/
inductive COSEKey where
  | ec2 (alg : Option Int) (crv : Int) (x y : List Nat)
  | rsa (alg : Option Int) (n e : List Nat)
  | okp (alg : Option Int) (crv : Int) (x : List Nat)
deriving DecidableEq, Repr

/-- Embeds `parseCOSEPublicKey`.  JavaScript dynamic-typing notes: `!kty`
is true for a missing key and for the number `0`; the `!crv || !x || !y`
style checks are true for missing fields and for the number `0` (a
`Uint8Array` is always truthy).  A field of the wrong CBOR type is collapsed
into the corresponding `COSE_*` error branch. -/
def parseCOSEPublicKey (publicKeyBytes : List Nat) : Except WError COSEKey :=
  match decodeCBOR publicKeyBytes with
  | none => .error (verificationError "COSE_DECODE_ERROR")
  | some v =>
    match v with
    | .map entries =>
      let alg : Option Int := (cborMapGetInt entries 3).bind asIntVal
      match cborMapGetInt entries 1 with
      | none => .error (verificationError "COSE_MISSING_KTY")
      | some ktyv =>
        match asIntVal ktyv with
        | some 0 => .error (verificationError "COSE_MISSING_KTY")
        | some 2 =>
          match (cborMapGetInt entries (-1)).bind asIntVal,
              (cborMapGetInt entries (-2)).bind asBytesVal,
              (cborMapGetInt entries (-3)).bind asBytesVal with
          | some crv, some x, some y =>
            if crv = 0 then .error (verificationError "COSE_EC2_INVALID")
            else .ok (.ec2 alg crv x y)
          | _, _, _ => .error (verificationError "COSE_EC2_INVALID")
        | some 3 =>
          match (cborMapGetInt entries (-1)).bind asBytesVal,
              (cborMapGetInt entries (-2)).bind asBytesVal with
          | some n, some e => .ok (.rsa alg n e)
          | _, _ => .error (verificationError "COSE_RSA_INVALID")
        | some 1 =>
          match (cborMapGetInt entries (-1)).bind asIntVal,
              (cborMapGetInt entries (-2)).bind asBytesVal with
          | some crv, some x =>
            if crv = 0 then .error (verificationError "COSE_OKP_INVALID")
            else .ok (.okp alg crv x)
          | _, _ => .error (verificationError "COSE_OKP_INVALID")
        | _ => .error (verificationError "COSE_UNSUPPORTED_KEY_TYPE")
    | _ => .error (verificationError "COSE_INVALID_FORMAT")

/-- The `alg` field shared by the three variants. -/
def COSEKey.algField : COSEKey → Option Int
  | .ec2 a _ _ _ => a
  | .rsa a _ _ => a
  | .okp a _ _ => a

/-- Embeds `getCOSEAlgorithmIdentifier`: a present (truthy, i.e. non-zero)
`alg` wins; otherwise the algorithm is inferred from key type and curve. -/
def getCOSEAlgorithmIdentifier (k : COSEKey) : Except WError Int :=
  match k.algField with
  | some a =>
    if a ≠ 0 then .ok a
    else inferCOSEAlg k
  | none => inferCOSEAlg k
where
  inferCOSEAlg : COSEKey → Except WError Int
    | .ec2 _ crv _ _ =>
      if crv = 1 then .ok (-7)
      else if crv = 2 then .ok (-35)
      else if crv = 3 then .ok (-36)
      else .error (verificationError "COSE_UNKNOWN_ALGORITHM")
    | .rsa _ _ _ => .ok (-257)
    | .okp _ crv _ =>
      if crv = 6 then .ok (-8)
      else .error (verificationError "COSE_UNKNOWN_ALGORITHM")

/-! ## Authenticator data (`src/crypto/authenticator-data.ts`) -/

structure AuthFlags where
  userPresent : Bool
  userVerified : Bool
  backupEligibility : Bool
  backupState : Bool
  attestedCredentialData : Bool
  extensionData : Bool
deriving DecidableEq, Repr

structure ParsedAuthenticatorData where
  rpIdHash : List Nat
  flags : AuthFlags
  counter : Int
  aaguid : Option (List Nat) := none
  credentialId : Option (List Nat) := none
  credentialPublicKey : Option (List Nat) := none
  extensionsData : Option (List Nat) := none
deriving DecidableEq, Repr

/-- Embeds `parseAuthenticatorData`.  Offsets: rpIdHash `[0,32)`, flags `32`,
counter `[33,37)`, then (with the AT flag) AAGUID `[37,53)`, credential-id
length `[53,55)`, credential id, and the rest as the COSE public key (both
the ED-set and ED-clear branches take all remaining bytes). -/
def parseAuthenticatorData (authData : List Nat) : Except WError ParsedAuthenticatorData :=
  if authData.length < 37 then
    .error (verificationError "AUTHENTICATOR_DATA_TOO_SHORT")
  else
    let rpIdHash := authData.take 32
    let flagsByte := (authData.drop 32).headD 0
    let flags : AuthFlags :=
      { userPresent := flagsByte.testBit 0
        userVerified := flagsByte.testBit 2
        backupEligibility := flagsByte.testBit 3
        backupState := flagsByte.testBit 4
        attestedCredentialData := flagsByte.testBit 6
        extensionData := flagsByte.testBit 7 }
    let counter := bufferToNumber ((authData.drop 33).take 4)
    if flags.attestedCredentialData then
      if authData.length < 37 + 16 + 2 then
        .error (verificationError "AUTHENTICATOR_DATA_INVALID_CREDENTIAL_DATA")
      else
        let aaguid := (authData.drop 37).take 16
        let credentialIdLength := (bufferToNumber ((authData.drop 53).take 2)).toNat
        if authData.length < 55 + credentialIdLength then
          .error (verificationError "AUTHENTICATOR_DATA_INVALID_CREDENTIAL_ID")
        else
          .ok
            { rpIdHash := rpIdHash
              flags := flags
              counter := counter
              aaguid := some aaguid
              credentialId := some ((authData.drop 55).take credentialIdLength)
              credentialPublicKey := some (authData.drop (55 + credentialIdLength))
              extensionsData := none }
    else
      .ok
        { rpIdHash := rpIdHash
          flags := flags
          counter := counter
          extensionsData := if flags.extensionData then some (authData.drop 37) else none }

/-- Embeds `validateAuthenticatorDataFlags` (user presence is required by
default). -/
def validateAuthenticatorDataFlags (flags : AuthFlags) (requireUserVerification : Bool)
    (requireUserPresence : Bool := true) : Except WError Unit :=
  if requireUserPresence ∧ ¬flags.userPresent then
    .error (verificationError "USER_PRESENCE_REQUIRED")
  else if requireUserVerification ∧ ¬flags.userVerified then
    .error (verificationError "USER_VERIFICATION_REQUIRED")
  else .ok ()

/-! ## Signature verification (`src/crypto/verify.ts`)

The `node:crypto` primitives are modelled as a parameter record: a DER/SPKI
hash-and-verify call (`createVerify(hash).verify`, which may throw — the
`Except Unit` error — or return a boolean) and a raw Ed25519 verify
(`createPublicKey` + `verify(null, …)`, likewise). -/

structure AlgInfo where
  name : String
  hash : String
  namedCurve : Option String := none
deriving DecidableEq, Repr

/-- Embeds `getAlgorithmInfo`. -/
def getAlgorithmInfo (alg : Int) : Except WError AlgInfo :=
  if alg = -7 then .ok ⟨"ECDSA", "SHA-256", some "P-256"⟩
  else if alg = -35 then .ok ⟨"ECDSA", "SHA-384", some "P-384"⟩
  else if alg = -36 then .ok ⟨"ECDSA", "SHA-512", some "P-521"⟩
  else if alg = -257 then .ok ⟨"RSASSA-PKCS1-v1_5", "SHA-256", none⟩
  else if alg = -258 then .ok ⟨"RSASSA-PKCS1-v1_5", "SHA-384", none⟩
  else if alg = -259 then .ok ⟨"RSASSA-PKCS1-v1_5", "SHA-512", none⟩
  else if alg = -37 then .ok ⟨"RSA-PSS", "SHA-256", none⟩
  else if alg = -38 then .ok ⟨"RSA-PSS", "SHA-384", none⟩
  else if alg = -39 then .ok ⟨"RSA-PSS", "SHA-512", none⟩
  else if alg = -8 then .ok ⟨"Ed25519", "SHA-512", none⟩
  else .error (verificationError "UNSUPPORTED_ALGORITHM")

/-- Embeds `ec2KeyToSPKI` (`Buffer.from([n])` stores `n mod 256`). -/
def ec2KeyToSPKI (x y : List Nat) (namedCurve : Option String) :
    Except WError (List Nat) :=
  let point := 4 :: (x ++ y)
  let curveOid? : Option (List Nat) :=
    if namedCurve = some "P-256" then some [0x2a, 0x86, 0x48, 0xce, 0x3d, 0x03, 0x01, 0x07]
    else if namedCurve = some "P-384" then some [0x2b, 0x81, 0x04, 0x00, 0x22]
    else if namedCurve = some "P-521" then some [0x2b, 0x81, 0x04, 0x00, 0x23]
    else none
  match curveOid? with
  | none => .error (verificationError "UNSUPPORTED_CURVE")
  | some curveOid =>
    let algorithmIdentifier :=
      [0x30, 0x13, 0x06, 0x07, 0x2a, 0x86, 0x48, 0xce, 0x3d, 0x02, 0x01,
        0x06, curveOid.length % 256] ++ curveOid
    let bitString := [0x03, (point.length + 1) % 256, 0x00] ++ point
    .ok ([0x30, (algorithmIdentifier.length + bitString.length) % 256] ++
      algorithmIdentifier ++ bitString)

/-- Embeds `rsaKeyToSPKI`. -/
def rsaKeyToSPKI (n e : List Nat) : List Nat :=
  let modulus := [0x02, n.length % 256] ++ n
  let exponent := [0x02, e.length % 256] ++ e
  let rsaPublicKey := [0x30, (modulus.length + exponent.length) % 256] ++ modulus ++ exponent
  let algorithmIdentifier :=
    [0x30, 0x0d, 0x06, 0x09, 0x2a, 0x86, 0x48, 0x86, 0xf7, 0x0d, 0x01, 0x01, 0x01, 0x05, 0x00]
  let bitString := [0x03, (rsaPublicKey.length + 1) % 256, 0x00] ++ rsaPublicKey
  [0x30, (algorithmIdentifier.length + bitString.length) % 256] ++
    algorithmIdentifier ++ bitString

/-- The `node:crypto` verification primitives this module calls.
`hashVerify hash spki pss data signature` models
`createVerify(hash).update(data).verify({key: spki, …[pss padding]}, signature)`;
`ed25519Verify pub data signature` models `createPublicKey({key: pub, format:
'raw'})` followed by `verify(null, data, keyObject, signature)`.  An `.error`
value models a thrown (non-`VerificationError`) crypto exception. -/
structure NodeCrypto where
  hashVerify : String → List Nat → Bool → List Nat → List Nat → Except Unit Bool
  ed25519Verify : List Nat → List Nat → List Nat → Except Unit Bool

/-- Embeds `verifyEd25519Signature`: inside its own try/catch, a 32-byte
check on the raw key, then the raw Ed25519 verify; any failure is `false`. -/
def verifyEd25519Signature (nc : NodeCrypto) (signature data : List Nat)
    (publicKeyRaw : List Nat) : Bool :=
  if publicKeyRaw.length ≠ 32 then false
  else
    match nc.ed25519Verify publicKeyRaw data signature with
    | .ok b => b
    | .error _ => false

/-- Embeds `verifySignature`: resolve the algorithm (errors propagate),
dispatch on the key type inside a try/catch that rethrows
`VerificationError`s and flattens any other exception to `false`. -/
def verifySignature (nc : NodeCrypto) (signature data : List Nat) (publicKey : COSEKey) :
    Except WError Bool :=
  match getCOSEAlgorithmIdentifier publicKey with
  | .error e => .error e
  | .ok alg =>
    match getAlgorithmInfo alg with
    | .error e => .error e
    | .ok algInfo =>
      match publicKey with
      | .ec2 _ _ x y =>
        match ec2KeyToSPKI x y algInfo.namedCurve with
        | .error e => .error e
        | .ok spki =>
          match nc.hashVerify algInfo.hash spki false data signature with
          | .ok b => .ok b
          | .error _ => .ok false
      | .rsa _ n e =>
        let spki := rsaKeyToSPKI n e
        match nc.hashVerify algInfo.hash spki (algInfo.name = "RSA-PSS") data signature with
        | .ok b => .ok b
        | .error _ => .ok false
      | .okp _ _ x =>
        if alg ≠ -8 then .error (verificationError "UNSUPPORTED_OKP_ALGORITHM")
        else .ok (verifyEd25519Signature nc signature data x)

/-! ## Ceremony verification (`src/registration/verify-response.ts`,
`src/authentication/verify-response.ts`)

`JSON.parse` of the client-data JSON is an external builtin; it is modelled
as a parameter `parseCD : String → Option ClientData` (where `none` models a
thrown parse error), and SHA-256 as a parameter `sha : List Nat → List Nat`
applied to UTF-8 bytes. -/

/-- The fields of `ParsedClientDataJSON` the verifiers read. -/
structure ClientData where
  ctype : String
  challenge : String
  origin : String
deriving DecidableEq, Repr

/-- A TypeScript `string | string[]` union value. -/
inductive StrOrStrs where
  | one (s : String)
  | many (l : List String)
deriving DecidableEq, Repr

/-- `Array.isArray(x) ? x : [x]`. -/
def sosToList : StrOrStrs → List String
  | .one s => [s]
  | .many l => l

/-- The part of `InternalConfig` the two verifiers read. -/
structure InternalCfg where
  rpID : String
  userVerification : String
deriving DecidableEq, Repr

structure RegResponseInner where
  clientDataJSON : String
  attestationObject : String
  transports : Option (List String) := none
deriving DecidableEq, Repr

structure RegistrationCredential where
  id : String
  rawId : String
  response : RegResponseInner
deriving DecidableEq, Repr

structure VerifyRegParams where
  response : RegistrationCredential
  expectedChallenge : String
  expectedOrigin : StrOrStrs
  expectedRPID : Option StrOrStrs := none
  requireUserVerification : Option Bool := none
deriving DecidableEq, Repr

structure RegCredentialOut where
  id : String
  publicKey : List Nat
  counter : Int
  transports : Option (List String)
deriving DecidableEq, Repr

structure VerifiedRegistrationInfo where
  credential : RegCredentialOut
  credentialDeviceType : String
  credentialBackedUp : Bool
  origin : String
  rpID : Option String
  userVerified : Bool
  attestationObject : List Nat
  clientDataJSON : List Nat
  aaguid : Option String := none
deriving DecidableEq, Repr

/-- Embeds `verifyRegistrationResponse`.  The catch-all turns any non-
`VerificationError` exception (a failed `JSON.parse`, a `TypeError` from a
missing or non-byte `authData` entry, a non-map attestation object) into
`REGISTRATION_VERIFICATION_FAILED`; `VerificationError`s are rethrown
unchanged. -/
def verifyRegistrationResponse (parseCD : String → Option ClientData)
    (sha : List Nat → List Nat) (config : InternalCfg) (params : VerifyRegParams) :
    Except WError VerifiedRegistrationInfo :=
  let expectedRPID := params.expectedRPID.getD (.one config.rpID)
  let requireUserVerification :=
    params.requireUserVerification.getD (config.userVerification = "required")
  let clientDataJSON := base64URLToBuffer params.response.response.clientDataJSON
  match parseCD (base64URLToString params.response.response.clientDataJSON) with
  | none => .error (verificationError "REGISTRATION_VERIFICATION_FAILED")
  | some clientData =>
    if clientData.ctype ≠ "webauthn.create" then
      .error (verificationError "INVALID_CLIENT_DATA_TYPE")
    else if clientData.challenge ≠ params.expectedChallenge then
      .error (verificationError "CHALLENGE_MISMATCH")
    else if ¬ (sosToList params.expectedOrigin).contains clientData.origin then
      .error (verificationError "ORIGIN_MISMATCH")
    else
      let attestationObjectBuffer := base64URLToBuffer params.response.response.attestationObject
      match decodeCBOR attestationObjectBuffer with
      | none => .error (verificationError "CBOR_DECODE_ERROR")
      | some decoded =>
        match decoded with
        | .map entries =>
          match (cborMapGetText entries "authData").bind asBytesVal with
          | none => .error (verificationError "REGISTRATION_VERIFICATION_FAILED")
          | some authDataBytes =>
            match parseAuthenticatorData authDataBytes with
            | .error e => .error e
            | .ok authData =>
              let rpIds := sosToList expectedRPID
              if (rpIds.find? fun rpId =>
                    buffersEqual authData.rpIdHash (sha (strBytes rpId))).isNone then
                .error (verificationError "RPID_MISMATCH")
              else
                match validateAuthenticatorDataFlags authData.flags requireUserVerification with
                | .error e => .error e
                | .ok _ =>
                  if ¬ (authData.flags.attestedCredentialData ∧
                        authData.credentialId.isSome ∧
                        authData.credentialPublicKey.isSome) then
                    .error (verificationError "MISSING_CREDENTIAL_DATA")
                  else
                    match parseCOSEPublicKey (authData.credentialPublicKey.getD []) with
                    | .error e => .error e
                    | .ok _ =>
                      .ok
                        { credential :=
                            { id := bufferToBase64URL (authData.credentialId.getD [])
                              publicKey := authData.credentialPublicKey.getD []
                              counter := authData.counter
                              transports := params.response.response.transports }
                          credentialDeviceType :=
                            if authData.flags.backupEligibility then "multiDevice"
                            else "singleDevice"
                          credentialBackedUp := authData.flags.backupState
                          origin := clientData.origin
                          rpID := rpIds.head?
                          userVerified := authData.flags.userVerified
                          attestationObject := attestationObjectBuffer
                          clientDataJSON := clientDataJSON
                          aaguid := (authData.aaguid).map bufferToBase64URL }
        | _ => .error (verificationError "REGISTRATION_VERIFICATION_FAILED")

structure AuthResponseInner where
  clientDataJSON : String
  authenticatorData : String
  signature : String
deriving DecidableEq, Repr

structure AuthenticationCredential where
  id : String
  rawId : String
  response : AuthResponseInner
deriving DecidableEq, Repr

/-- The part of a stored `WebAuthnCredential` the authentication verifier
reads. -/
structure StoredCredential where
  id : String
  publicKey : List Nat
  counter : Int
deriving DecidableEq, Repr

structure VerifyAuthParams where
  response : AuthenticationCredential
  expectedChallenge : String
  expectedOrigin : StrOrStrs
  expectedRPID : Option StrOrStrs := none
  credential : StoredCredential
  requireUserVerification : Option Bool := none
deriving DecidableEq, Repr

structure VerifiedAuthenticationInfo where
  newCounter : Int
  origin : String
  rpID : Option String
  userVerified : Bool
  credentialID : String
deriving DecidableEq, Repr

/-- Embeds `verifyAuthenticationResponse` (same external-primitive
parameters as registration, plus the `NodeCrypto` record for
`verifySignature`).  The catch-all maps non-`VerificationError`, non-
`AuthenticationError` exceptions to `AUTHENTICATION_VERIFICATION_FAILED`. -/
def verifyAuthenticationResponse (parseCD : String → Option ClientData)
    (sha : List Nat → List Nat) (nc : NodeCrypto) (config : InternalCfg)
    (params : VerifyAuthParams) : Except WError VerifiedAuthenticationInfo :=
  let expectedRPID := params.expectedRPID.getD (.one config.rpID)
  let requireUserVerification :=
    params.requireUserVerification.getD (config.userVerification = "required")
  if params.response.id ≠ params.credential.id then
    .error (authenticationError "CREDENTIAL_ID_MISMATCH")
  else
    let clientDataJSON := base64URLToBuffer params.response.response.clientDataJSON
    match parseCD (base64URLToString params.response.response.clientDataJSON) with
    | none => .error (authenticationError "AUTHENTICATION_VERIFICATION_FAILED")
    | some clientData =>
      if clientData.ctype ≠ "webauthn.get" then
        .error (verificationError "INVALID_CLIENT_DATA_TYPE")
      else if clientData.challenge ≠ params.expectedChallenge then
        .error (verificationError "CHALLENGE_MISMATCH")
      else if ¬ (sosToList params.expectedOrigin).contains clientData.origin then
        .error (verificationError "ORIGIN_MISMATCH")
      else
        let authenticatorData := base64URLToBuffer params.response.response.authenticatorData
        match parseAuthenticatorData authenticatorData with
        | .error e => .error e
        | .ok authData =>
          let rpIds := sosToList expectedRPID
          match rpIds.find? fun rpId =>
              buffersEqual authData.rpIdHash (sha (strBytes rpId)) with
          | none => .error (verificationError "RPID_MISMATCH")
          | some matchedRpId =>
            match validateAuthenticatorDataFlags authData.flags requireUserVerification with
            | .error e => .error e
            | .ok _ =>
              if ¬ (authData.counter = 0 ∧ params.credential.counter = 0) ∧
                  authData.counter ≤ params.credential.counter then
                .error (authenticationError "COUNTER_ERROR")
              else
                match parseCOSEPublicKey params.credential.publicKey with
                | .error e => .error e
                | .ok publicKey =>
                  let clientDataHash := sha clientDataJSON
                  let signatureBase := concatBuffers authenticatorData clientDataHash
                  let signature := base64URLToBuffer params.response.response.signature
                  match verifySignature nc signature signatureBase publicKey with
                  | .error e => .error e
                  | .ok isValidSignature =>
                    if ¬ isValidSignature then
                      .error (authenticationError "SIGNATURE_VERIFICATION_FAILED")
                    else
                      .ok
                        { newCounter := authData.counter
                          origin := clientData.origin
                          rpID := some matchedRpId
                          userVerified := authData.flags.userVerified
                          credentialID := params.response.id }

/-! ## Configuration validation (`src/server.ts`) -/

/-- The scalar fields of `WebAuthnServerConfig` that `validateConfig` and
`buildInternalConfig` read (adapters, loggers and authenticator-selection
objects are never validated). -/
structure WebAuthnServerConfig where
  rpName : String
  rpID : String
  origin : StrOrStrs
  encryptionSecret : String
  challengeSize : Option Int := none
  timeout : Option Int := none
  sessionDuration : Option Int := none
  userVerification : Option String := none
  attestationType : Option String := none
deriving DecidableEq, Repr

/-- JavaScript truthiness of an optional number (`undefined` and `0` are
falsy). -/
def intOptTruthy : Option Int → Bool
  | some n => n ≠ 0
  | none => false

/-- `x || d` for an optional number. -/
def intOptOr (o : Option Int) (d : Int) : Int :=
  match o with
  | some n => if n ≠ 0 then n else d
  | none => d

/-- `x || d` for an optional string (`''` is falsy). -/
def strOptOr (o : Option String) (d : String) : String :=
  match o with
  | some s => if s ≠ "" then s else d
  | none => d

/-- JavaScript truthiness of `string | string[]` (an array is always
truthy). -/
def sosTruthy : StrOrStrs → Bool
  | .one s => s ≠ ""
  | .many _ => true

/-- Embeds `WebAuthnServer.validateConfig` (each failed check throws a
`ConfigurationError`, which always carries code `CONFIGURATION_ERROR`). -/
def validateConfig (config : WebAuthnServerConfig) : Except WError Unit :=
  if config.rpName = "" then .error configurationError
  else if config.rpID = "" then .error configurationError
  else if ¬ sosTruthy config.origin then .error configurationError
  else if config.encryptionSecret = "" then .error configurationError
  else if config.encryptionSecret.length < 32 then .error configurationError
  else if intOptTruthy config.challengeSize ∧
      ((config.challengeSize.getD 0) < 16 ∨ 64 < (config.challengeSize.getD 0)) then
    .error configurationError
  else if intOptTruthy config.timeout ∧ (config.timeout.getD 0) < 10000 then
    .error configurationError
  else .ok ()

/-- The scalar fields of `InternalConfig` that `buildInternalConfig`
computes. -/
structure BuiltInternalConfig where
  rpName : String
  rpID : String
  origin : StrOrStrs
  sessionDuration : Int
  encryptionSecret : String
  attestationType : String
  userVerification : String
  challengeSize : Int
  timeout : Int
deriving DecidableEq, Repr

/-- Embeds `WebAuthnServer.buildInternalConfig`. -/
def buildInternalConfig (config : WebAuthnServerConfig) : BuiltInternalConfig :=
  { rpName := config.rpName
    rpID := config.rpID
    origin := config.origin
    sessionDuration := intOptOr config.sessionDuration 86400000
    encryptionSecret := config.encryptionSecret
    attestationType := strOptOr config.attestationType "none"
    userVerification := strOptOr config.userVerification "preferred"
    challengeSize := intOptOr config.challengeSize 32
    timeout := intOptOr config.timeout 60000 }

/-! ## Session tokens (`src/session/token.ts`)

The AES-256-GCM cipher, the HMAC-SHA-256 key derivation and the JSON
(de)serialisation of the payload and the envelope are external primitives
(`node:crypto`, `JSON`); they are grouped into a parameter record
`TokenPrims σ`, where `σ` stands for the caller-supplied `SessionData`
record type.  The salt and IV bytes drawn from `randomBytes` are explicit
arguments, and `new Date().toISOString()` is the explicit `now` argument. -/

/-- The `EncryptedToken` envelope: four Base64URL fields, serialised by
`JSON.stringify` in the insertion order `iv`, `data`, `tag`, `salt`. -/
structure EncryptedToken where
  iv : String
  data : String
  tag : String
  salt : String
deriving DecidableEq, Repr

/-- The exact `JSON.stringify` output for an `EncryptedToken` whose fields
are Base64URL strings (no characters needing escapes). -/
def envelopeJsonStr (t : EncryptedToken) : String :=
  "\x7b\"iv\":\"" ++ t.iv ++ "\",\"data\":\"" ++ t.data ++ "\",\"tag\":\"" ++ t.tag ++
    "\",\"salt\":\"" ++ t.salt ++ "\"\x7d"

/-- External primitives of the token codec.
* `hmacSha256 salt msg` models `createHmac('sha256', salt).update(msg).digest()`;
* `aesGcmEncrypt key iv pt` models `createCipheriv('aes-256-gcm', key, iv)`,
  `update`/`final` and `getAuthTag`, returning (ciphertext, tag);
* `aesGcmDecrypt key iv ct tag` models `createDecipheriv` + `setAuthTag` +
  `update`/`final`, with `none` for a thrown authentication failure;
* `payloadToJson sid data createdAt` models
  `JSON.stringify({sessionId, data, createdAt})` as UTF-8 bytes, and
  `payloadFromJson` the corresponding `JSON.parse`;
* `envelopeFromJson` models UTF-8 decoding plus `JSON.parse` of the outer
  envelope (`none` for a thrown parse error or missing fields). -/
structure TokenPrims (σ : Type) where
  hmacSha256 : List Nat → List Nat → List Nat
  aesGcmEncrypt : List Nat → List Nat → List Nat → List Nat × List Nat
  aesGcmDecrypt : List Nat → List Nat → List Nat → List Nat → Option (List Nat)
  payloadToJson : String → σ → String → List Nat
  payloadFromJson : List Nat → Option (String × σ × String)
  envelopeFromJson : List Nat → Option EncryptedToken

/-- Embeds `createSessionToken`: derive the per-token key from the fresh
salt, encrypt the payload JSON, assemble the envelope and Base64URL it. -/
def createSessionToken {σ : Type} (prims : TokenPrims σ) (salt iv : List Nat)
    (now : String) (sessionId : String) (data : σ) (secret : String) : String :=
  let key := prims.hmacSha256 salt (strBytes secret)
  let jsonData := prims.payloadToJson sessionId data now
  let encTag := prims.aesGcmEncrypt key iv jsonData
  bufferToBase64URL (strBytes (envelopeJsonStr
    { iv := bufferToBase64URL iv
      data := bufferToBase64URL encTag.1
      tag := bufferToBase64URL encTag.2
      salt := bufferToBase64URL salt }))

/-- Embeds `parseSessionToken`: every failure in the try block (envelope
parse, authentication, payload parse) collapses to the single
`INVALID_TOKEN` error. -/
def parseSessionToken {σ : Type} (prims : TokenPrims σ) (token : String)
    (secret : String) : Except WError (String × σ × String) :=
  match prims.envelopeFromJson (base64URLToBuffer token) with
  | none => .error (sessionError "INVALID_TOKEN")
  | some tokenData =>
    let salt := base64URLToBuffer tokenData.salt
    let iv := base64URLToBuffer tokenData.iv
    let encrypted := base64URLToBuffer tokenData.data
    let tag := base64URLToBuffer tokenData.tag
    let key := prims.hmacSha256 salt (strBytes secret)
    match prims.aesGcmDecrypt key iv encrypted tag with
    | none => .error (sessionError "INVALID_TOKEN")
    | some decrypted =>
      match prims.payloadFromJson decrypted with
      | none => .error (sessionError "INVALID_TOKEN")
      | some parsed => .ok parsed

/-! ## Round-trip facts about the Base64URL codec -/

/-- The URL-safe base64 alphabet `[A-Za-z0-9-_]` as a list of characters. -/
def b64UrlChars : List Char :=
  "ABCDEFGHIJKLMNOPQRSTUVWXYZabcdefghijklmnopqrstuvwxyz0123456789-_".data

theorem b64CharVal_valToB64Char : ∀ v, v < 64 → b64CharVal (valToB64Char v) = some v := by
  decide

theorem b64UrlChars_spec : ∀ c ∈ b64UrlChars,
    (b64CharVal c).isSome ∧ valToB64Char ((b64CharVal c).getD 0) = c ∧
      (b64CharVal c).getD 0 < 64 := by decide

theorem sextets_of_bytesToB64Vals : ∀ (bs : List Nat), (∀ b ∈ bs, b < 256) →
    sextetsToBytes (bytesToB64Vals bs) = bs
  | [], _ => rfl
  | [b1], h => by
    have h1 : b1 < 256 := h b1 (by simp)
    simp only [bytesToB64Vals, sextetsToBytes, List.cons.injEq, and_true]
    omega
  | [b1, b2], h => by
    have h1 : b1 < 256 := h b1 (by simp)
    have h2 : b2 < 256 := h b2 (by simp)
    simp only [bytesToB64Vals, sextetsToBytes, List.cons.injEq, and_true]
    refine ⟨?_, ?_⟩ <;> omega
  | b1 :: b2 :: b3 :: rest, h => by
    have h1 : b1 < 256 := h b1 (by simp)
    have h2 : b2 < 256 := h b2 (by simp)
    have h3 : b3 < 256 := h b3 (by simp)
    have ih := sextets_of_bytesToB64Vals rest (fun b hb => h b (by simp [hb]))
    simp only [bytesToB64Vals, sextetsToBytes, ih, List.cons.injEq, and_true]
    refine ⟨?_, ?_, ?_⟩ <;> omega

/-- The padding bits of the final base64 character are zero (true of every
canonical, padding-stripped base64 encoding). -/
def b64PadBitsZero : List Nat → Prop
  | _ :: _ :: _ :: _ :: rest => b64PadBitsZero rest
  | [_, b] => b % 16 = 0
  | [_, _, c] => c % 4 = 0
  | _ => True

theorem bytesToB64Vals_of_sextets : ∀ (vs : List Nat), (∀ v ∈ vs, v < 64) →
    vs.length % 4 ≠ 1 → b64PadBitsZero vs → bytesToB64Vals (sextetsToBytes vs) = vs
  | [], _, _, _ => rfl
  | [a], _, hlen, _ => by simp at hlen
  | [a, b], h, _, hpad => by
    have ha : a < 64 := h a (by simp)
    have hb : b < 64 := h b (by simp)
    simp only [b64PadBitsZero] at hpad
    simp only [sextetsToBytes, bytesToB64Vals, List.cons.injEq, and_true]
    refine ⟨?_, ?_⟩ <;> omega
  | [a, b, c], h, _, hpad => by
    have ha : a < 64 := h a (by simp)
    have hb : b < 64 := h b (by simp)
    have hc : c < 64 := h c (by simp)
    simp only [b64PadBitsZero] at hpad
    simp only [sextetsToBytes, bytesToB64Vals, List.cons.injEq, and_true]
    refine ⟨?_, ?_, ?_⟩ <;> omega
  | a :: b :: c :: d :: rest, h, hlen, hpad => by
    have ha : a < 64 := h a (by simp)
    have hb : b < 64 := h b (by simp)
    have hc : c < 64 := h c (by simp)
    have hd : d < 64 := h d (by simp)
    simp only [b64PadBitsZero] at hpad
    have hlen' : rest.length % 4 ≠ 1 := by
      simp only [List.length_cons] at hlen; omega
    have ih := bytesToB64Vals_of_sextets rest (fun v hv => h v (by simp [hv])) hlen' hpad
    simp only [sextetsToBytes, bytesToB64Vals, ih, List.cons.injEq, and_true]
    refine ⟨?_, ?_, ?_, ?_⟩ <;> omega

theorem bytesToB64Vals_lt64 : ∀ (bs : List Nat), (∀ b ∈ bs, b < 256) →
    ∀ v ∈ bytesToB64Vals bs, v < 64
  | [], _ => by simp [bytesToB64Vals]
  | [b1], h => by
    have h1 : b1 < 256 := h b1 (by simp)
    simp only [bytesToB64Vals, List.mem_cons, List.not_mem_nil, or_false]
    rintro v (rfl | rfl) <;> omega
  | [b1, b2], h => by
    have h1 : b1 < 256 := h b1 (by simp)
    have h2 : b2 < 256 := h b2 (by simp)
    simp only [bytesToB64Vals, List.mem_cons, List.not_mem_nil, or_false]
    rintro v (rfl | rfl | rfl) <;> omega
  | b1 :: b2 :: b3 :: rest, h => by
    have h1 : b1 < 256 := h b1 (by simp)
    have h2 : b2 < 256 := h b2 (by simp)
    have h3 : b3 < 256 := h b3 (by simp)
    have ih := bytesToB64Vals_lt64 rest (fun b hb => h b (by simp [hb]))
    simp only [bytesToB64Vals, List.mem_cons]
    rintro v (rfl | rfl | rfl | rfl | hv)
    · omega
    · omega
    · omega
    · omega
    · exact ih v hv

theorem filterMap_map_vals : ∀ (vals : List Nat), (∀ v ∈ vals, v < 64) →
    (vals.map valToB64Char).filterMap b64CharVal = vals
  | [], _ => rfl
  | v :: rest, h => by
    have hv : v < 64 := h v (by simp)
    have ih := filterMap_map_vals rest (fun w hw => h w (by simp [hw]))
    simp only [List.map_cons, List.filterMap_cons, b64CharVal_valToB64Char v hv, ih]

/-- `base64URLToBuffer ∘ bufferToBase64URL = id` on byte lists. -/
theorem base64URL_decode_encode (bs : List Nat) (h : ∀ b ∈ bs, b < 256) :
    base64URLToBuffer (bufferToBase64URL bs) = bs := by
  unfold base64URLToBuffer bufferToBase64URL
  rw [show (String.mk ((bytesToB64Vals bs).map valToB64Char)).data
      = (bytesToB64Vals bs).map valToB64Char from rfl,
    filterMap_map_vals _ (bytesToB64Vals_lt64 bs h)]
  exact sextets_of_bytesToB64Vals bs h

theorem filterMap_b64_eq_map : ∀ (l : List Char), (∀ c ∈ l, (b64CharVal c).isSome) →
    l.filterMap b64CharVal = l.map (fun c => (b64CharVal c).getD 0)
  | [], _ => rfl
  | c :: rest, h => by
    obtain ⟨v, hv⟩ := Option.isSome_iff_exists.mp (h c (by simp))
    have ih := filterMap_b64_eq_map rest (fun d hd => h d (by simp [hd]))
    simp only [List.filterMap_cons, List.map_cons, hv, ih, Option.getD_some]

/-- `bufferToBase64URL ∘ base64URLToBuffer = id` on canonical Base64URL
strings: alphabet characters only, length not ≡ 1 (mod 4), zero padding bits
in the final character. -/
theorem base64URL_encode_decode (s : String) (halpha : ∀ c ∈ s.data, c ∈ b64UrlChars)
    (hlen : s.length % 4 ≠ 1) (hpad : b64PadBitsZero (s.data.filterMap b64CharVal)) :
    bufferToBase64URL (base64URLToBuffer s) = s := by
  have hsome : ∀ c ∈ s.data, (b64CharVal c).isSome :=
    fun c hc => (b64UrlChars_spec c (halpha c hc)).1
  have hmap := filterMap_b64_eq_map s.data hsome
  have hlt : ∀ v ∈ s.data.map (fun c => (b64CharVal c).getD 0), v < 64 := by
    intro v hv
    obtain ⟨c, hc, rfl⟩ := List.mem_map.mp hv
    exact (b64UrlChars_spec c (halpha c hc)).2.2
  have hlen' : (s.data.map (fun c => (b64CharVal c).getD 0)).length % 4 ≠ 1 := by
    rwa [List.length_map]
  have hpad' : b64PadBitsZero (s.data.map (fun c => (b64CharVal c).getD 0)) := by
    rwa [hmap] at hpad
  unfold base64URLToBuffer bufferToBase64URL
  rw [hmap, bytesToB64Vals_of_sextets _ hlt hlen' hpad']
  have hfix : (s.data.map (fun c => (b64CharVal c).getD 0)).map valToB64Char = s.data := by
    rw [List.map_map]
    conv_rhs => rw [← List.map_id s.data]
    exact List.map_congr_left fun c hc => (b64UrlChars_spec c (halpha c hc)).2.1
  rw [hfix]

/-- Spec-side value: the unsigned big-endian 32-bit integer formed from four
bytes (`signature_counter (u32)` in the spec's layout table). -/
def beU32 (bs : List Nat) : Nat := bs.foldl (fun a b => a * 256 + b) 0

/-- C8: `parseAuthenticatorData` on a 37-byte input whose counter bytes are
`80 00 00 00` returns the counter `-2147483648`: the JavaScript 32-bit
shift/or in `bufferToNumber` reads the four bytes as a signed 32-bit
integer, so counters `≥ 2^31` come out negative instead of as the spec's
unsigned big-endian u32 value `2147483648`. -/
theorem C8_counter_not_u32 :
    ∃ pd, parseAuthenticatorData (List.replicate 32 0 ++ [0, 128, 0, 0, 0]) = .ok pd ∧
      pd.counter = -2147483648 ∧ pd.counter < 0 ∧
      beU32 [128, 0, 0, 0] = 2147483648 ∧ pd.counter ≠ (beU32 [128, 0, 0, 0] : Int) := by
  refine ⟨_, rfl, by decide, by decide, by decide, by decide⟩



/-- C9 counterexample: `"AB"` is a string over `[A-Za-z0-9_-]`, but decoding
and re-encoding yields `"AA"`: the low four bits of `'B'` are dropped by the
decoder (they do not fill a byte), so the round trip is not the identity. -/
theorem C9_counterexample :
    (∀ c ∈ "AB".data, c ∈ b64UrlChars) ∧
      bufferToBase64URL (base64URLToBuffer "AB") = "AA" ∧
      bufferToBase64URL (base64URLToBuffer "AB") ≠ "AB" := by
  refine ⟨by decide, by decide, by decide⟩

/-- C9 (amended): decoding then re-encoding is the identity exactly on
canonical Base64URL strings — alphabet characters only, length not
≡ 1 (mod 4), and zero padding bits in the final character; the extra two
hypotheses are forced by the counterexample. -/
theorem C9_roundtrip_canonical (s : String) (halpha : ∀ c ∈ s.data, c ∈ b64UrlChars)
    (hlen : s.length % 4 ≠ 1) (hpad : b64PadBitsZero (s.data.filterMap b64CharVal)) :
    bufferToBase64URL (base64URLToBuffer s) = s :=
  base64URL_encode_decode s halpha hlen hpad

/-- C9 witness: the round trip at the canonical string `"AQID"`. -/
theorem C9_roundtrip_witness :
    (∀ c ∈ "AQID".data, c ∈ b64UrlChars) ∧ "AQID".length % 4 ≠ 1 ∧
      b64PadBitsZero ("AQID".data.filterMap b64CharVal) ∧
      bufferToBase64URL (base64URLToBuffer "AQID") = "AQID" :=
  ⟨by decide, by decide, True.intro,
    C9_roundtrip_canonical "AQID" (by decide) (by decide) True.intro⟩



/-- C7: every accepted configuration has an encryption secret of length
≥ 32, and its effective (defaulted) challenge size lies in `[16, 64]` and
its effective timeout is ≥ 10000; explicitly, `challengeSize` 15 and 65 are
rejected with a `ConfigurationError` (code `CONFIGURATION_ERROR`) while 16
and 64 are accepted. -/
theorem C7_config_invariants (c : WebAuthnServerConfig) (h : validateConfig c = .ok ()) :
    32 ≤ c.encryptionSecret.length ∧
    16 ≤ (buildInternalConfig c).challengeSize ∧ (buildInternalConfig c).challengeSize ≤ 64 ∧
    10000 ≤ (buildInternalConfig c).timeout ∧
    validateConfig { c with challengeSize := some 15 } = .error configurationError ∧
    validateConfig { c with challengeSize := some 16 } = .ok () ∧
    validateConfig { c with challengeSize := some 64 } = .ok () ∧
    validateConfig { c with challengeSize := some 65 } = .error configurationError := by
  unfold validateConfig at h ⊢
  unfold buildInternalConfig intOptOr intOptTruthy at *
  split_ifs at h
  simp_all
  cases hcs : c.challengeSize <;> cases ht : c.timeout <;> simp_all <;>
    split_ifs <;> simp_all <;> omega



/-- A concrete configuration used to witness the accepted-configuration
invariants. -/
def c7cfg : WebAuthnServerConfig :=
  { rpName := "Example RP"
    rpID := "example.com"
    origin := .one "https://example.com"
    encryptionSecret := "0123456789abcdef0123456789abcdef" }

/-- C7 witness: the invariants hold at a concrete accepted configuration. -/
theorem C7_config_witness :
    validateConfig c7cfg = .ok () ∧
      (32 ≤ c7cfg.encryptionSecret.length ∧
        16 ≤ (buildInternalConfig c7cfg).challengeSize ∧
          (buildInternalConfig c7cfg).challengeSize ≤ 64 ∧
        10000 ≤ (buildInternalConfig c7cfg).timeout ∧
        validateConfig { c7cfg with challengeSize := some 15 } = .error configurationError ∧
        validateConfig { c7cfg with challengeSize := some 16 } = .ok () ∧
        validateConfig { c7cfg with challengeSize := some 64 } = .ok () ∧
        validateConfig { c7cfg with challengeSize := some 65 } = .error configurationError) :=
  ⟨rfl, C7_config_invariants c7cfg rfl⟩



/-- Spec-side classification (from the spec's words): the configuration
error, if any, that `verifySignature` must propagate — an unsupported or
unknown algorithm, an unsupported key type/curve, or a non-EdDSA algorithm
on an OKP key. -/
def specSignatureConfigError (pk : COSEKey) : Option WError :=
  match getCOSEAlgorithmIdentifier pk with
  | .error e => some e
  | .ok alg =>
    match getAlgorithmInfo alg with
    | .error e => some e
    | .ok info =>
      match pk with
      | .ec2 _ _ x y =>
        match ec2KeyToSPKI x y info.namedCurve with
        | .error e => some e
        | .ok _ => none
      | .rsa _ _ _ => none
      | .okp _ _ _ =>
        if alg ≠ -8 then some (verificationError "UNSUPPORTED_OKP_ALGORITHM") else none

/-- Spec-side view (from the spec's words): the underlying crypto
primitive's verdict on `(signature, message, key)` — the hash-and-verify
call on the key's SPKI encoding, or the raw Ed25519 verify (whose raw key
must be exactly 32 bytes, otherwise the signature is rejected outright). -/
def specCryptoVerdict (nc : NodeCrypto) (signature data : List Nat) (pk : COSEKey) :
    Except Unit Bool :=
  match getCOSEAlgorithmIdentifier pk, pk with
  | .ok alg, .ec2 _ _ x y =>
    match getAlgorithmInfo alg with
    | .ok info =>
      match ec2KeyToSPKI x y info.namedCurve with
      | .ok spki => nc.hashVerify info.hash spki false data signature
      | .error _ => .ok false
    | .error _ => .ok false
  | .ok alg, .rsa _ n e =>
    match getAlgorithmInfo alg with
    | .ok info => nc.hashVerify info.hash (rsaKeyToSPKI n e) (info.name = "RSA-PSS") data signature
    | .error _ => .ok false
  | _, .okp _ _ x =>
    if x.length ≠ 32 then .ok false else nc.ed25519Verify x data signature
  | .error _, _ => .ok false

/-- C2: `verifySignature` propagates exactly the configuration errors
(unsupported algorithm, unsupported key type/curve, non-EdDSA OKP) as thrown
errors; in every other case it returns a boolean — the crypto primitive's
verdict, with a thrown crypto error flattened to `false` (so it returns
`true` exactly when the primitive judged the signature valid). -/
theorem C2_verifySignature_error_contract (nc : NodeCrypto) (signature data : List Nat)
    (pk : COSEKey) :
    verifySignature nc signature data pk =
      (match specSignatureConfigError pk with
        | some e => .error e
        | none =>
          .ok (match specCryptoVerdict nc signature data pk with
            | .ok b => b
            | .error _ => false)) ∧
    (verifySignature nc signature data pk = .ok true ↔
      specSignatureConfigError pk = none ∧
        specCryptoVerdict nc signature data pk = .ok true) := by
  have hmain : verifySignature nc signature data pk =
      (match specSignatureConfigError pk with
        | some e => .error e
        | none =>
          .ok (match specCryptoVerdict nc signature data pk with
            | .ok b => b
            | .error _ => false)) := by
    unfold verifySignature specSignatureConfigError specCryptoVerdict verifyEd25519Signature
    cases halg : getCOSEAlgorithmIdentifier pk with
    | error e => cases pk <;> simp [halg]
    | ok alg =>
      cases hinfo : getAlgorithmInfo alg with
      | error e => cases pk <;> simp [halg, hinfo]
      | ok info =>
        cases pk with
        | ec2 a crv x y =>
          cases hspki : ec2KeyToSPKI x y info.namedCurve with
          | error e => simp [halg, hinfo, hspki]
          | ok spki =>
            cases hcall : nc.hashVerify info.hash spki false data signature <;>
              simp [halg, hinfo, hspki, hcall]
        | rsa a n e =>
          cases hcall : nc.hashVerify info.hash (rsaKeyToSPKI n e) (info.name = "RSA-PSS") data
              signature <;> simp [halg, hinfo, hcall]
        | okp a crv x =>
          by_cases h8 : alg = -8
          · subst h8
            by_cases hx : x.length = 32
            · cases hcall : nc.ed25519Verify x data signature <;>
                simp [halg, hinfo, hx, hcall]
            · simp [halg, hinfo, hx]
          · simp [halg, hinfo, h8]
  refine ⟨hmain, ?_⟩
  rw [hmain]
  cases hce : specSignatureConfigError pk with
  | some e => simp
  | none =>
    cases hv : specCryptoVerdict nc signature data pk with
    | error u => simp
    | ok b => cases b <;> simp



/-- C3: for an OKP key whose resolved algorithm is EdDSA, `verifySignature`
hands the raw message (no pre-hash) together with the signature and the raw
32-byte key `x` to the Ed25519 primitive and returns its verdict; whenever
`x` is not exactly 32 bytes the result is `false` (never `true`).  Here
`nc.ed25519Verify x data signature = .ok true` is precisely "the signature
was produced over the message `data` by the private key matching `x`". -/
theorem C3_ed25519_direct (nc : NodeCrypto) (signature data : List Nat)
    (alg : Option Int) (crv : Int) (x : List Nat)
    (halg : getCOSEAlgorithmIdentifier (.okp alg crv x) = .ok (-8)) :
    verifySignature nc signature data (.okp alg crv x) =
      .ok (verifyEd25519Signature nc signature data x) ∧
    (x.length ≠ 32 → verifySignature nc signature data (.okp alg crv x) = .ok false) ∧
    (verifySignature nc signature data (.okp alg crv x) = .ok true ↔
      x.length = 32 ∧ nc.ed25519Verify x data signature = .ok true) := by
  have h1 : verifySignature nc signature data (.okp alg crv x) =
      .ok (verifyEd25519Signature nc signature data x) := by
    unfold verifySignature
    simp [halg, getAlgorithmInfo]
  refine ⟨h1, ?_, ?_⟩
  · intro hx
    rw [h1]
    unfold verifyEd25519Signature
    simp [hx]
  · rw [h1]
    unfold verifyEd25519Signature
    by_cases hx : x.length = 32
    · cases hcall : nc.ed25519Verify x data signature with
      | ok b => cases b <;> simp [hx, hcall]
      | error u => simp [hx, hcall]
    · simp [hx]

/-- A `NodeCrypto` instance whose Ed25519 primitive accepts everything,
used to witness the EdDSA dispatch. -/
def ncAccept : NodeCrypto :=
  { hashVerify := fun _ _ _ _ _ => .ok false
    ed25519Verify := fun _ _ _ => .ok true }

/-- C3 witness: a 32-byte key with `alg = EdDSA` at which the Ed25519
verdict is returned unchanged. -/
theorem C3_ed25519_witness :
    getCOSEAlgorithmIdentifier (.okp (some (-8)) 6 (List.replicate 32 0)) = .ok (-8) ∧
      verifySignature ncAccept [1] [2] (.okp (some (-8)) 6 (List.replicate 32 0)) = .ok true :=
  ⟨by rfl, by
    have h := (C3_ed25519_direct ncAccept [1] [2] (some (-8)) 6
      (List.replicate 32 0) (by rfl)).2.2
    exact h.mpr ⟨by decide, rfl⟩⟩

/-! ## Concrete test fixtures

A stand-in hash (injective on the short inputs used here), a client-data
parser instance for a fixed clientDataJSON, and CBOR builders for concrete
attestation objects — used by the concrete counterexamples and witnesses. -/

/-- Stand-in for SHA-256 in concrete runs: pad/truncate to 32 bytes. -/
def shaToy : List Nat → List Nat := fun bs => (bs ++ List.replicate 32 0).take 32

/-- `JSON.parse` instance recognising the single client-data blob `"CD"`
(decoded from the Base64URL string `"Q0Q"`) used in registration runs. -/
def cdParserReg : String → Option ClientData := fun s =>
  if s = "CD" then some ⟨"webauthn.create", "ch", "https://ex"⟩ else none

/-- CBOR text-string encoding (length < 24). -/
def cborText (s : String) : List Nat := (0x60 + s.length) :: strBytes s

/-- CBOR byte-string encoding with a one-byte length. -/
def cborBytesShort (bs : List Nat) : List Nat := 0x58 :: (bs.length % 256) :: bs

/-- CBOR attestation-object map `{fmt, attStmt: {}, authData}`. -/
def mkAttObj (fmt : String) (authData : List Nat) : List Nat :=
  0xa3 :: (cborText "fmt" ++ cborText fmt ++ cborText "attStmt" ++ [0xa0] ++
    cborText "authData" ++ cborBytesShort authData)

/-- A minimal CBOR COSE EC2 key: `{1: 2, 3: -7, -1: 1, -2: h'01', -3: h'02'}`. -/
def coseEC2Bytes : List Nat :=
  [0xa5, 0x01, 0x02, 0x03, 0x26, 0x20, 0x01, 0x21, 0x41, 0x01, 0x22, 0x41, 0x02]

/-- Registration authenticator data: rpIdHash ++ flags ++ counter ++ AAGUID
(16 zero bytes) ++ credential-id length/bytes ++ COSE key. -/
def mkRegAuthData (rpIdHash : List Nat) (flags : Nat) (credId : List Nat)
    (cose : List Nat) : List Nat :=
  rpIdHash ++ [flags] ++ [0, 0, 0, 0] ++ List.replicate 16 0 ++
    [0, credId.length % 256] ++ credId ++ cose

/-- The rpID field of a registration result, when it succeeded. -/
def regRpIDView (r : Except WError VerifiedRegistrationInfo) : Option (Option String) :=
  match r with
  | .ok i => some i.rpID
  | .error _ => none

/-- Authenticator data whose rpIdHash matches `"b.com"` (AT and UP flags
set, counter 0). -/
def c6authData : List Nat :=
  mkRegAuthData (shaToy (strBytes "b.com")) 0x41 [9, 9] coseEC2Bytes

/-- Registration parameters listing the expected RP-IDs `["a.com", "b.com"]`,
where only `"b.com"` matches the authenticator data. -/
def c6params : VerifyRegParams :=
  { response :=
      { id := "x", rawId := "x"
        response :=
          { clientDataJSON := "Q0Q"
            attestationObject := bufferToBase64URL (mkAttObj "none" c6authData) } }
    expectedChallenge := "ch"
    expectedOrigin := .one "https://ex"
    expectedRPID := some (.many ["a.com", "b.com"]) }

/-- C6 counterexample: a successful registration against expected RP-IDs
`["a.com", "b.com"]` whose authenticator data matches `"b.com"` returns
`rpID = "a.com"` — the first expected RP-ID, not the matched one. -/
theorem C6_counterexample :
    regRpIDView (verifyRegistrationResponse cdParserReg shaToy ⟨"ex", "preferred"⟩ c6params) =
        some (some "a.com") ∧
      shaToy (strBytes "b.com") = c6authData.take 32 ∧
      shaToy (strBytes "a.com") ≠ c6authData.take 32 := by
  refine ⟨by decide, by decide, by decide⟩



/-- C6 (amended): on success, the `rpID` field of the returned
`VerifiedRegistrationInfo` is the first expected RP-ID (`rpIds[0]`),
regardless of which expected RP-ID's hash matched the authenticator data;
it is the matched RP-ID only when the first entry matches (in particular
always when a single expected RP-ID is supplied). -/
theorem C6_rpid_is_first_expected (parseCD : String → Option ClientData)
    (sha : List Nat → List Nat) (config : InternalCfg) (params : VerifyRegParams) :
    (verifyRegistrationResponse parseCD sha config params).map (fun i => i.rpID) =
      (verifyRegistrationResponse parseCD sha config params).map
        (fun _ => (sosToList (params.expectedRPID.getD (.one config.rpID))).head?) := by
  have key : ∀ i, verifyRegistrationResponse parseCD sha config params = .ok i →
      i.rpID = (sosToList (params.expectedRPID.getD (.one config.rpID))).head? := by
    intro i h
    simp only [verifyRegistrationResponse] at h
    repeat' split at h
    all_goals simp_all
    all_goals (obtain rfl := h; rfl)
  cases hr : verifyRegistrationResponse parseCD sha config params with
  | error e => rfl
  | ok i => simp [Except.map, key i hr]

/-- The credential id embedded in the authenticator data of a registration
response's attestation object (the source derives the returned credential id
solely from this). -/
def regEmbeddedCredentialId (r : RegistrationCredential) : Option (List Nat) :=
  match decodeCBOR (base64URLToBuffer r.response.attestationObject) with
  | some (.map entries) =>
    match (cborMapGetText entries "authData").bind asBytesVal with
    | some ad =>
      match parseAuthenticatorData ad with
      | .ok pd => pd.credentialId
      | .error _ => none
    | none => none
  | _ => none

/-- Package a present optional byte string as its Base64URL image. -/
theorem b64OptView (o : Option (List Nat)) (h : o.isSome) :
    some (bufferToBase64URL (o.getD [])) = o.map bufferToBase64URL := by
  cases o <;> simp_all

/-- C10: registration verification never reads the top-level `id`/`rawId`
(replacing them leaves the result unchanged); on success the returned
credential id is the Base64URL of the credential id embedded in the
authenticator data; authentication, by contrast, rejects any response whose
`id` differs from the stored credential's id with `CREDENTIAL_ID_MISMATCH`. -/
theorem C10_id_rawId_ignored (parseCD : String → Option ClientData)
    (sha : List Nat → List Nat) (nc : NodeCrypto) (config configA : InternalCfg)
    (params : VerifyRegParams) (a b : String) (aparams : VerifyAuthParams) :
    verifyRegistrationResponse parseCD sha config
        { params with response := { params.response with id := a, rawId := b } } =
      verifyRegistrationResponse parseCD sha config params ∧
    (verifyRegistrationResponse parseCD sha config params).map (fun i => some i.credential.id) =
      (verifyRegistrationResponse parseCD sha config params).map
        (fun _ => (regEmbeddedCredentialId params.response).map bufferToBase64URL) ∧
    (aparams.response.id ≠ aparams.credential.id →
      verifyAuthenticationResponse parseCD sha nc configA aparams =
        .error (authenticationError "CREDENTIAL_ID_MISMATCH")) := by
  refine ⟨rfl, ?_, ?_⟩
  · have key : ∀ i, verifyRegistrationResponse parseCD sha config params = .ok i →
        some i.credential.id = (regEmbeddedCredentialId params.response).map bufferToBase64URL := by
      intro i h
      simp only [verifyRegistrationResponse] at h
      simp only [regEmbeddedCredentialId]
      repeat' split at h
      all_goals (try (exact Except.noConfusion h))
      all_goals (injection h with h2; subst h2; simp_all)
      all_goals (refine b64OptView _ ?_; simp_all)
    cases hr : verifyRegistrationResponse parseCD sha config params with
    | error e => rfl
    | ok i => simp [Except.map, key i hr]
  · intro hne
    simp [verifyAuthenticationResponse, hne]



/-- Authentication parameters whose response id differs from the stored
credential id. -/
def c10aparams : VerifyAuthParams :=
  { response := { id := "x", rawId := "x"
                  response := { clientDataJSON := "", authenticatorData := "", signature := "" } }
    expectedChallenge := ""
    expectedOrigin := .one ""
    credential := { id := "y", publicKey := [], counter := 0 } }

/-- C10 witness: the authentication contrast at a concrete mismatching id. -/
theorem C10_id_rawId_witness :
    c10aparams.response.id ≠ c10aparams.credential.id ∧
      verifyAuthenticationResponse cdParserReg shaToy ncAccept ⟨"ex", "preferred"⟩ c10aparams =
        .error (authenticationError "CREDENTIAL_ID_MISMATCH") :=
  ⟨by decide,
    (C10_id_rawId_ignored cdParserReg shaToy ncAccept ⟨"ex", "preferred"⟩ ⟨"ex", "preferred"⟩
      c6params "a" "b" c10aparams).2.2 (by decide)⟩

/-- Erase the echoed raw attestation-object bytes from a registration
result (the only result component that depends on `fmt`/`attStmt`). -/
def scrubAttestationEcho (r : Except WError VerifiedRegistrationInfo) :
    Except WError VerifiedRegistrationInfo :=
  match r with
  | .ok i => .ok { i with attestationObject := [] }
  | .error e => .error e

/-- C5 (amended): two registration responses that are identical except for
the `fmt`/`attStmt` entries of their attestation objects (same `authData`
entry) verify identically — neither `fmt` nor `attStmt` is ever examined —
up to the echoed raw `attestationObject` bytes in the returned info, which
are the unparsed input and therefore differ. -/
theorem C5_fmt_attStmt_ignored (parseCD : String → Option ClientData)
    (sha : List Nat → List Nat) (config : InternalCfg) (params : VerifyRegParams)
    (ao1 ao2 : String) (e1 e2 : List (CBORValue × CBORValue))
    (h1 : decodeCBOR (base64URLToBuffer ao1) = some (.map e1))
    (h2 : decodeCBOR (base64URLToBuffer ao2) = some (.map e2))
    (hsame : cborMapGetText e1 "authData" = cborMapGetText e2 "authData") :
    scrubAttestationEcho (verifyRegistrationResponse parseCD sha config
        { params with response := { params.response with response :=
            { params.response.response with attestationObject := ao1 } } }) =
      scrubAttestationEcho (verifyRegistrationResponse parseCD sha config
        { params with response := { params.response with response :=
            { params.response.response with attestationObject := ao2 } } }) := by
  simp only [verifyRegistrationResponse, h1, h2]
  rw [hsame]
  repeat' split
  all_goals simp_all [scrubAttestationEcho]



/-- Authenticator data for the fixed-RP runs (rpIdHash matches `"ex"`). -/
def c5authData : List Nat :=
  mkRegAuthData (shaToy (strBytes "ex")) 0x41 [9, 9] coseEC2Bytes

/-- Base64URL attestation object for `c5authData` with the given `fmt`. -/
def c5ao (fmt : String) : String := bufferToBase64URL (mkAttObj fmt c5authData)

/-- Registration parameters carrying the given attestation object. -/
def c5params (ao : String) : VerifyRegParams :=
  { response :=
      { id := "x", rawId := "x"
        response := { clientDataJSON := "Q0Q", attestationObject := ao } }
    expectedChallenge := "ch"
    expectedOrigin := .one "https://ex" }

/-- The decoded CBOR entries of `c5ao fmt`. -/
def c5entries (fmt : String) : List (CBORValue × CBORValue) :=
  [(.text "fmt", .text fmt), (.text "attStmt", .map []), (.text "authData", .bytes c5authData)]

/-- The echoed raw attestation object of a registration result. -/
def regAttObjView (r : Except WError VerifiedRegistrationInfo) : Option (List Nat) :=
  match r with
  | .ok i => some i.attestationObject
  | .error _ => none

/-- C5 counterexample: two registration responses identical except for the
`fmt` entry (`"none"` vs `"packed"`) both verify, but the results are not
equal — the returned info echoes the raw attestation-object bytes, which
differ. -/
theorem C5_counterexample :
    regAttObjView (verifyRegistrationResponse cdParserReg shaToy ⟨"ex", "preferred"⟩
        (c5params (c5ao "none"))) = some (mkAttObj "none" c5authData) ∧
    regAttObjView (verifyRegistrationResponse cdParserReg shaToy ⟨"ex", "preferred"⟩
        (c5params (c5ao "packed"))) = some (mkAttObj "packed" c5authData) ∧
    verifyRegistrationResponse cdParserReg shaToy ⟨"ex", "preferred"⟩ (c5params (c5ao "none")) ≠
      verifyRegistrationResponse cdParserReg shaToy ⟨"ex", "preferred"⟩
        (c5params (c5ao "packed")) := by
  refine ⟨by decide, by decide, fun h => ?_⟩
  have := congrArg regAttObjView h
  revert this
  decide

/-- C5 witness: the fmt-independence theorem applied at the two concrete
attestation objects. -/
theorem C5_fmt_attStmt_witness :
    decodeCBOR (base64URLToBuffer (c5ao "none")) = some (.map (c5entries "none")) ∧
    decodeCBOR (base64URLToBuffer (c5ao "packed")) = some (.map (c5entries "packed")) ∧
    cborMapGetText (c5entries "none") "authData" =
      cborMapGetText (c5entries "packed") "authData" ∧
    scrubAttestationEcho (verifyRegistrationResponse cdParserReg shaToy ⟨"ex", "preferred"⟩
        (c5params (c5ao "none"))) =
      scrubAttestationEcho (verifyRegistrationResponse cdParserReg shaToy ⟨"ex", "preferred"⟩
        (c5params (c5ao "packed"))) :=
  ⟨by rfl, by rfl, by rfl,
    C5_fmt_attStmt_ignored cdParserReg shaToy ⟨"ex", "preferred"⟩ (c5params (c5ao "none"))
      (c5ao "none") (c5ao "packed") (c5entries "none") (c5entries "packed")
      (by rfl) (by rfl) (by rfl)⟩

/-- Every error thrown by `parseCOSEPublicKey` is a `VerificationError`. -/
theorem parseCOSEPublicKey_error_kind (pk : List Nat) (e : WError)
    (h : parseCOSEPublicKey pk = .error e) : e.kind = "VerificationError" := by
  simp only [parseCOSEPublicKey] at h
  repeat' split at h
  all_goals (try (exact Except.noConfusion h))
  all_goals (injection h with h2; subst h2; rfl)

/-- Every error thrown by `getCOSEAlgorithmIdentifier` is a
`VerificationError`. -/
theorem getCOSEAlgorithmIdentifier_error_kind (k : COSEKey) (e : WError)
    (h : getCOSEAlgorithmIdentifier k = .error e) : e.kind = "VerificationError" := by
  simp only [getCOSEAlgorithmIdentifier, getCOSEAlgorithmIdentifier.inferCOSEAlg] at h
  repeat' split at h
  all_goals (try (exact Except.noConfusion h))
  all_goals (injection h with h2; subst h2; rfl)

/-- Every error thrown by `getAlgorithmInfo` is a `VerificationError`. -/
theorem getAlgorithmInfo_error_kind (alg : Int) (e : WError)
    (h : getAlgorithmInfo alg = .error e) : e.kind = "VerificationError" := by
  simp only [getAlgorithmInfo] at h
  repeat' split at h
  all_goals (try (exact Except.noConfusion h))
  all_goals (injection h with h2; subst h2; rfl)

/-- Every error thrown by `ec2KeyToSPKI` is a `VerificationError`. -/
theorem ec2KeyToSPKI_error_kind (x y : List Nat) (ncv : Option String) (e : WError)
    (h : ec2KeyToSPKI x y ncv = .error e) : e.kind = "VerificationError" := by
  simp only [ec2KeyToSPKI] at h
  repeat' split at h
  all_goals (try (exact Except.noConfusion h))
  all_goals (injection h with h2; subst h2; rfl)

/-- Every error thrown by `verifySignature` is a `VerificationError`. -/
theorem verifySignature_error_kind (nc : NodeCrypto) (s d : List Nat) (k : COSEKey)
    (e : WError) (h : verifySignature nc s d k = .error e) : e.kind = "VerificationError" := by
  simp only [verifySignature] at h
  repeat' split at h
  all_goals (try (exact Except.noConfusion h))
  all_goals (injection h with h2; subst h2)
  all_goals (try rfl)
  all_goals first
    | (exact getCOSEAlgorithmIdentifier_error_kind _ _ (by assumption))
    | (exact getAlgorithmInfo_error_kind _ _ (by assumption))
    | (exact ec2KeyToSPKI_error_kind _ _ _ _ (by assumption))



/-- C1: with the stored counter `old = params.credential.counter` and the
authenticator counter `new = ad.counter`, and all checks before the counter
rule passing: the check is skipped when `new = 0 ∧ old = 0`; otherwise any
`new ≤ old` fails with `COUNTER_ERROR`, a passing counter never yields
`COUNTER_ERROR`, and a verification can succeed only when the rule holds
(the success also reports `newCounter = new`). -/
theorem C1_counter_rule (parseCD : String → Option ClientData) (sha : List Nat → List Nat)
    (nc : NodeCrypto) (config : InternalCfg) (params : VerifyAuthParams)
    (cd : ClientData) (ad : ParsedAuthenticatorData)
    (hid : params.response.id = params.credential.id)
    (hcd : parseCD (base64URLToString params.response.response.clientDataJSON) = some cd)
    (hty : cd.ctype = "webauthn.get")
    (hch : cd.challenge = params.expectedChallenge)
    (hor : (sosToList params.expectedOrigin).contains cd.origin = true)
    (had : parseAuthenticatorData
        (base64URLToBuffer params.response.response.authenticatorData) = .ok ad)
    (hrp : ((sosToList (params.expectedRPID.getD (.one config.rpID))).find? fun rpId =>
        buffersEqual ad.rpIdHash (sha (strBytes rpId))).isSome = true)
    (hup : ad.flags.userPresent = true)
    (huv : params.requireUserVerification.getD (config.userVerification = "required") = true →
        ad.flags.userVerified = true) :
    (¬(ad.counter = 0 ∧ params.credential.counter = 0) →
        ad.counter ≤ params.credential.counter →
        verifyAuthenticationResponse parseCD sha nc config params =
          .error (authenticationError "COUNTER_ERROR")) ∧
    ((ad.counter = 0 ∧ params.credential.counter = 0) ∨
        params.credential.counter < ad.counter →
        verifyAuthenticationResponse parseCD sha nc config params ≠
          .error (authenticationError "COUNTER_ERROR")) ∧
    (∀ info, verifyAuthenticationResponse parseCD sha nc config params = .ok info →
        (((ad.counter = 0 ∧ params.credential.counter = 0) ∨
            params.credential.counter < ad.counter) ∧ info.newCounter = ad.counter)) := by
  obtain ⟨rp, hrp'⟩ := Option.isSome_iff_exists.mp hrp
  have hflags : validateAuthenticatorDataFlags ad.flags
      (params.requireUserVerification.getD (config.userVerification = "required")) = .ok () := by
    unfold validateAuthenticatorDataFlags
    by_cases hr : params.requireUserVerification.getD (config.userVerification = "required") <;>
      simp_all
  refine ⟨?_, ?_, ?_⟩
  · intro h1 h2
    simp only [verifyAuthenticationResponse, hid, hcd, hty, hch, hor, had, hrp', hflags]
    simp only [ne_eq, not_true_eq_false, if_false]
    rw [if_pos ⟨h1, h2⟩]
  · intro hok hcontra
    simp only [verifyAuthenticationResponse, hid, hcd, hty, hch, hor, had, hrp', hflags]
      at hcontra
    simp only [ne_eq, not_true_eq_false, if_false] at hcontra
    repeat' split at hcontra
    all_goals (try (exact Except.noConfusion hcontra))
    all_goals first
      | (rcases hok with ⟨hz1, hz2⟩ | hlt <;> omega)
      | (simp only [Except.error.injEq] at hcontra; subst hcontra;
          first
            | exact absurd (parseCOSEPublicKey_error_kind _ _ (by assumption)) (by decide)
            | exact absurd (verifySignature_error_kind _ _ _ _ _ (by assumption)) (by decide))
      | simp [authenticationError] at hcontra
  · intro info h
    simp only [verifyAuthenticationResponse, hid, hcd, hty, hch, hor, had, hrp', hflags] at h
    simp only [ne_eq, not_true_eq_false, if_false] at h
    repeat' split at h
    all_goals (try (exact Except.noConfusion h))
    injection h with h2
    subst h2
    exact ⟨by omega, rfl⟩



/-- `JSON.parse` instance recognising the client-data blob `"CD"` as a
`webauthn.get` ceremony. -/
def cdParserAuth : String → Option ClientData := fun s =>
  if s = "CD" then some ⟨"webauthn.get", "ch", "https://ex"⟩ else none

/-- 37-byte authenticator data: rpIdHash for `"r"`, UP flag, counter 5. -/
def c1authData : List Nat := shaToy (strBytes "r") ++ [1] ++ [0, 0, 0, 5]

/-- The parse of `c1authData`. -/
def c1ad : ParsedAuthenticatorData :=
  { rpIdHash := shaToy (strBytes "r")
    flags := ⟨true, false, false, false, false, false⟩
    counter := 5 }

/-- Authentication parameters presenting counter 5 against a stored
counter 5. -/
def c1params : VerifyAuthParams :=
  { response := { id := "cid", rawId := "cid"
                  response := { clientDataJSON := "Q0Q"
                                authenticatorData := bufferToBase64URL c1authData
                                signature := "" } }
    expectedChallenge := "ch"
    expectedOrigin := .one "https://ex"
    credential := { id := "cid", publicKey := [], counter := 5 } }

/-- C1 witness: a replayed counter (5 against stored 5) fails with
`COUNTER_ERROR`. -/
theorem C1_counter_witness :
    verifyAuthenticationResponse cdParserAuth shaToy ncAccept ⟨"r", "preferred"⟩ c1params =
      .error (authenticationError "COUNTER_ERROR") :=
  (C1_counter_rule cdParserAuth shaToy ncAccept ⟨"r", "preferred"⟩ c1params
      ⟨"webauthn.get", "ch", "https://ex"⟩ c1ad
      (by decide) (by rfl) (by decide) (by decide) (by decide) (by rfl) (by rfl)
      (by decide) (by decide)).1 (by decide) (by decide)

/-! ### Toy instantiations of the token-codec primitives (witness fixtures) -/

/-- Toy key derivation (distinct secrets give distinct keys here). -/
def toyHmac (salt msg : List Nat) : List Nat :=
  ((msg ++ salt) ++ List.replicate 32 7).take 32

/-- Toy authentication tag over (key, iv, ciphertext). -/
def toyTag (key iv ct : List Nat) : List Nat :=
  [key.sum % 256, iv.sum % 256, ct.sum % 256, ct.length % 256]

/-- Toy AEAD: ciphertext = plaintext, tag as above. -/
def toyEnc (key iv pt : List Nat) : List Nat × List Nat := (pt, toyTag key iv pt)

/-- Toy AEAD open: authenticate, then return the plaintext. -/
def toyDec (key iv ct tag : List Nat) : Option (List Nat) :=
  if tag = toyTag key iv ct then some ct else none

/-- Length-prefixed string reader for the toy payload format. -/
def readLP : List Nat → Option (String × List Nat)
  | [] => none
  | n :: rest =>
    if rest.length < n then none else some (bytesToStr (rest.take n), rest.drop n)

/-- Toy payload serialiser: three length-prefixed strings. -/
def toyPayloadEnc (sid data now : String) : List Nat :=
  (sid.length % 256) :: strBytes sid ++ (data.length % 256) :: strBytes data ++
    (now.length % 256) :: strBytes now

/-- Toy payload parser (inverse of `toyPayloadEnc` on short ASCII strings). -/
def toyPayloadDec (bs : List Nat) : Option (String × String × String) :=
  match readLP bs with
  | none => none
  | some (s1, r1) =>
    match readLP r1 with
    | none => none
    | some (s2, r2) =>
      match readLP r2 with
      | none => none
      | some (s3, r3) => if r3 = [] then some (s1, s2, s3) else none

/-- Expect a literal prefix of characters. -/
def dropLit (pre l : List Char) : Option (List Char) :=
  if l.take pre.length = pre then some (l.drop pre.length) else none

/-- Take characters up to the next double quote. -/
def takeField (l : List Char) : String × List Char :=
  (String.mk (l.takeWhile (· ≠ '"')), l.dropWhile (· ≠ '"'))

/-- Toy parser for the exact envelope JSON layout produced by
`envelopeJsonStr`. -/
def toyEnvParse (bs : List Nat) : Option EncryptedToken :=
  let l := (bytesToStr bs).data
  match dropLit "\x7b\"iv\":\"".data l with
  | none => none
  | some r0 =>
    let (ivF, r1) := takeField r0
    match dropLit "\",\"data\":\"".data r1 with
    | none => none
    | some r2 =>
      let (dataF, r3) := takeField r2
      match dropLit "\",\"tag\":\"".data r3 with
      | none => none
      | some r4 =>
        let (tagF, r5) := takeField r4
        match dropLit "\",\"salt\":\"".data r5 with
        | none => none
        | some r6 =>
          let (saltF, r7) := takeField r6
          match dropLit "\"\x7d".data r7 with
          | none => none
          | some r8 =>
            if r8 = [] then some ⟨ivF, dataF, tagF, saltF⟩ else none

/-- The toy primitive record over `σ = String`. -/
def toyPrims : TokenPrims String :=
  { hmacSha256 := toyHmac
    aesGcmEncrypt := toyEnc
    aesGcmDecrypt := toyDec
    payloadToJson := toyPayloadEnc
    payloadFromJson := toyPayloadDec
    envelopeFromJson := toyEnvParse }




/-- The envelope a seal call assembles (so that
`createSessionToken … = bufferToBase64URL (strBytes (envelopeJsonStr (sealedEnvelope …)))`
holds definitionally). -/
def sealedEnvelope {σ : Type} (prims : TokenPrims σ) (salt iv : List Nat)
    (now sessionId : String) (data : σ) (secret : String) : EncryptedToken :=
  let key := prims.hmacSha256 salt (strBytes secret)
  let jsonData := prims.payloadToJson sessionId data now
  let encTag := prims.aesGcmEncrypt key iv jsonData
  { iv := bufferToBase64URL iv
    data := bufferToBase64URL encTag.1
    tag := bufferToBase64URL encTag.2
    salt := bufferToBase64URL salt }

/-- The (ciphertext, tag) pair a seal call produces. -/
def tokenCipher {σ : Type} (prims : TokenPrims σ) (salt iv : List Nat)
    (now sessionId : String) (data : σ) (secret : String) : List Nat × List Nat :=
  prims.aesGcmEncrypt (prims.hmacSha256 salt (strBytes secret)) iv
    (prims.payloadToJson sessionId data now)

theorem valToB64Char_toNat_lt : ∀ v, v < 64 → (valToB64Char v).toNat < 256 := by decide

theorem bufferToBase64URL_char_lt (bs : List Nat) (h : ∀ b ∈ bs, b < 256) :
    ∀ c ∈ (bufferToBase64URL bs).data, c.toNat < 256 := by
  intro c hc
  simp only [bufferToBase64URL] at hc
  obtain ⟨v, hv, rfl⟩ := List.mem_map.mp hc
  exact valToB64Char_toNat_lt v (bytesToB64Vals_lt64 bs h v hv)

theorem strBytes_envelope_lt256 (i d t s : List Nat)
    (hi : ∀ b ∈ i, b < 256) (hd : ∀ b ∈ d, b < 256)
    (ht : ∀ b ∈ t, b < 256) (hs : ∀ b ∈ s, b < 256) :
    ∀ b ∈ strBytes (envelopeJsonStr
      ⟨bufferToBase64URL i, bufferToBase64URL d, bufferToBase64URL t, bufferToBase64URL s⟩),
      b < 256 := by
  intro b hb
  obtain ⟨c, hc, rfl⟩ := List.mem_map.mp hb
  clear hb
  have happ : ∀ x y : String, (x ++ y).data = x.data ++ y.data := fun _ _ => rfl
  simp only [envelopeJsonStr, happ, List.mem_append] at hc
  rcases hc with ((((((((hc | hc) | hc) | hc) | hc) | hc) | hc) | hc) | hc)
  all_goals first
    | exact bufferToBase64URL_char_lt _ hi c hc
    | exact bufferToBase64URL_char_lt _ hd c hc
    | exact bufferToBase64URL_char_lt _ ht c hc
    | exact bufferToBase64URL_char_lt _ hs c hc
    | (revert hc; revert c; decide)



/-- C4 (amended): sealing then opening with the same secret recovers the
original session id and data; opening with a different secret fails with
`INVALID_TOKEN` whenever the AEAD rejects under the differently derived key
(the crypto-soundness assumptions appear as the instance hypotheses on the
external primitives); and a mutation of the token is detected only if it
changes the decoded bytes — any token string decoding to the same bytes
(e.g. one whose final Base64URL character differs only in its padding bits)
opens successfully, which refutes the unrestricted single-bit-mutation
claim. -/
theorem C4_token_seal_open {σ : Type} (prims : TokenPrims σ) (salt iv : List Nat)
    (now sessionId secret altSecret : String) (data : σ)
    (hsalt : ∀ b ∈ salt, b < 256) (hiv : ∀ b ∈ iv, b < 256)
    (hct : ∀ b ∈ (tokenCipher prims salt iv now sessionId data secret).1, b < 256)
    (htag : ∀ b ∈ (tokenCipher prims salt iv now sessionId data secret).2, b < 256)
    (henv : prims.envelopeFromJson (strBytes (envelopeJsonStr
        (sealedEnvelope prims salt iv now sessionId data secret))) =
      some (sealedEnvelope prims salt iv now sessionId data secret))
    (hdec : prims.aesGcmDecrypt (prims.hmacSha256 salt (strBytes secret)) iv
        (tokenCipher prims salt iv now sessionId data secret).1
        (tokenCipher prims salt iv now sessionId data secret).2 =
      some (prims.payloadToJson sessionId data now))
    (hpay : prims.payloadFromJson (prims.payloadToJson sessionId data now) =
      some (sessionId, data, now))
    (hdec' : prims.aesGcmDecrypt (prims.hmacSha256 salt (strBytes altSecret)) iv
        (tokenCipher prims salt iv now sessionId data secret).1
        (tokenCipher prims salt iv now sessionId data secret).2 = none) :
    parseSessionToken prims (createSessionToken prims salt iv now sessionId data secret)
        secret = .ok (sessionId, data, now) ∧
    parseSessionToken prims (createSessionToken prims salt iv now sessionId data secret)
        altSecret = .error (sessionError "INVALID_TOKEN") ∧
    (∀ t' : String,
      base64URLToBuffer t' =
          base64URLToBuffer (createSessionToken prims salt iv now sessionId data secret) →
      parseSessionToken prims t' secret = .ok (sessionId, data, now)) := by
  have htok : base64URLToBuffer (createSessionToken prims salt iv now sessionId data secret) =
      strBytes (envelopeJsonStr (sealedEnvelope prims salt iv now sessionId data secret)) := by
    have : createSessionToken prims salt iv now sessionId data secret =
        bufferToBase64URL (strBytes (envelopeJsonStr
          (sealedEnvelope prims salt iv now sessionId data secret))) := rfl
    rw [this]
    exact base64URL_decode_encode _ (strBytes_envelope_lt256 _ _ _ _ hiv hct htag hsalt)
  have hfields : base64URLToBuffer (sealedEnvelope prims salt iv now sessionId data
        secret).salt = salt ∧
      base64URLToBuffer (sealedEnvelope prims salt iv now sessionId data secret).iv = iv ∧
      base64URLToBuffer (sealedEnvelope prims salt iv now sessionId data secret).data =
        (tokenCipher prims salt iv now sessionId data secret).1 ∧
      base64URLToBuffer (sealedEnvelope prims salt iv now sessionId data secret).tag =
        (tokenCipher prims salt iv now sessionId data secret).2 :=
    ⟨base64URL_decode_encode _ hsalt, base64URL_decode_encode _ hiv,
      base64URL_decode_encode _ hct, base64URL_decode_encode _ htag⟩
  have hopen : parseSessionToken prims
      (createSessionToken prims salt iv now sessionId data secret) secret =
      .ok (sessionId, data, now) := by
    unfold parseSessionToken
    rw [htok]
    simp only [henv]
    rw [hfields.1, hfields.2.1, hfields.2.2.1, hfields.2.2.2]
    simp only [hdec, hpay]
  refine ⟨hopen, ?_, ?_⟩
  · unfold parseSessionToken
    rw [htok]
    simp only [henv]
    rw [hfields.1, hfields.2.1, hfields.2.2.1, hfields.2.2.2]
    simp only [hdec']
  · intro t' ht'
    have : parseSessionToken prims t' secret = parseSessionToken prims
        (createSessionToken prims salt iv now sessionId data secret) secret := by
      unfold parseSessionToken
      rw [ht']
    rw [this, hopen]



/-- A concrete sealed token over the toy primitives. -/
def c4token : String := createSessionToken toyPrims [1] [2] "T" "S" "D" "K"

/-- `c4token` with the single low-order bit of its final character flipped
(`'0'` → `'1'`): the final Base64URL character's two padding bits are
dropped by the decoder, so the mutated token decodes to the same bytes. -/
def c4mutated : String := String.mk (c4token.data.dropLast ++ ['1'])

/-- C4 counterexample: a single-bit mutation of a sealed token that still
opens successfully — flipping a padding bit of the final Base64URL
character leaves the decoded envelope unchanged, so `parseSessionToken`
returns the original payload instead of failing with `INVALID_TOKEN`. -/
theorem C4_counterexample :
    c4mutated ≠ c4token ∧
    c4mutated.length = c4token.length ∧
    c4token.data.getLast? = some '0' ∧
    c4mutated.data.getLast? = some '1' ∧
    Nat.xor '0'.toNat '1'.toNat = 1 ∧
    parseSessionToken toyPrims c4mutated "K" = .ok ("S", "D", "T") :=
  ⟨by decide, by decide, by decide, by decide, by decide, by rfl⟩

/-- C4 witness: seal/open round trip and wrong-secret rejection at the toy
primitives and concrete inputs. -/
theorem C4_token_witness :
    parseSessionToken toyPrims (createSessionToken toyPrims [1] [2] "T" "S" "D" "K") "K" =
        .ok ("S", "D", "T") ∧
      parseSessionToken toyPrims (createSessionToken toyPrims [1] [2] "T" "S" "D" "K") "L" =
        .error (sessionError "INVALID_TOKEN") :=
  have h := C4_token_seal_open toyPrims [1] [2] "T" "S" "K" "L" "D"
    (by decide) (by decide) (by decide) (by decide) (by rfl) (by rfl) (by rfl) (by rfl)
  ⟨h.1, h.2.1⟩

end WebAuthnKit
